import Mathlib

/-!
Verification development for the credential-lifecycle and reminder-scheduler
core of the telegram reminder bot.

The Python dictionaries holding OAuth token data are embedded as a record
with optional fields plus an uninterpreted `extra` bag; a key that is present
with value `None` in Python is modelled as an absent key (every access in the
source goes through `dict.get`, which identifies the two).  Times are epoch
seconds: the current time is a `Nat` (`int(time())`), stored expiry values are
`Int`.  Python exceptions are modelled by `Except` / explicit outcome values,
and external HTTP exchanges by explicit response parameters.
-/

/-- One per-identity OAuth token record (`token_data` dict in the source).
`extra` models all keys the core does not interpret; they are carried
verbatim. -/
structure TokenData where
  access_token : Option String
  refresh_token : Option String
  expires_at : Option Int
  extra : List (String × String)
deriving DecidableEq

/-- Python truthiness of the token dict: `if not token_data` is true exactly
for `None` (modelled by `Option.none` at call sites) and the empty dict. -/
def TokenData.isEmptyDict (t : TokenData) : Bool :=
  t.access_token.isNone && t.refresh_token.isNone && t.expires_at.isNone && t.extra.isEmpty

/-- The body of a successful provider refresh response:
`{access_token, expires_in?, refresh_token?}`. -/
structure ProviderResponse where
  access_token : String
  expires_in : Option Int
  refresh_token : Option String
deriving DecidableEq

/-- An HTTP response from the provider token endpoint: status code plus the
parsed body (the body is only consulted on status 200). -/
structure RefreshHttp where
  status : Nat
  body : ProviderResponse
deriving DecidableEq

/-- Failure modes of `refresh_access_token`: missing refresh token, non-200
provider response, or a transport-level exception from the HTTP client. -/
inductive RefreshError
  | noRefreshToken
  | refreshFailed (status : Nat)
  | transportError
deriving DecidableEq

/-- The credential store: the `user_tokens` table keyed by `user_id`. -/
abbrev TokenStore := List (String × TokenData)

/-- `StorageManager.get_user_token`: the stored record for an identity. -/
def storage_get_user_token : TokenStore → String → Option TokenData
  | [], _ => none
  | (k, v) :: rest, uid => if k = uid then some v else storage_get_user_token rest uid

/-- `StorageManager.save_user_token`: upsert by identity key. -/
def storage_save_user_token : TokenStore → String → TokenData → TokenStore
  | [], uid, td => [(uid, td)]
  | (k, v) :: rest, uid, td =>
    if k = uid then (uid, td) :: rest
    else (k, v) :: storage_save_user_token rest uid td

/-- `StorageManager.delete_user_token`: remove the row for the identity,
returning whether a row existed. -/
def storage_delete_user_token : TokenStore → String → Bool × TokenStore
  | [], _ => (false, [])
  | (k, v) :: rest, uid =>
    if k = uid then (true, (storage_delete_user_token rest uid).2)
    else
      let r := storage_delete_user_token rest uid
      (r.1, (k, v) :: r.2)

/-- `validation.is_token_valid`: strict validity check.  `if not token_data`
rejects an absent or empty dict, `if not expires_at` rejects an absent or
zero expiry (Python falsiness), then `current_time < expires_at`. -/
def is_token_valid (td : Option TokenData) (now : Nat) : Bool :=
  match td with
  | none => false
  | some t =>
    if t.isEmptyDict then false
    else
      match t.expires_at with
      | none => false
      | some e => if e = 0 then false else decide ((now : Int) < e)

/-- `refresh_access_token` applied to a 200 response body: replace
`access_token`, recompute `expires_at = now + expires_in` (default 3600),
replace `refresh_token` only when the response carries one, keep everything
else. -/
def applyRefresh (td : TokenData) (now : Nat) (body : ProviderResponse) : TokenData :=
  { access_token := some body.access_token
    expires_at := some ((now : Int) + body.expires_in.getD 3600)
    refresh_token :=
      match body.refresh_token with
      | some nrt => some nrt
      | none => td.refresh_token
    extra := td.extra }

/-- `core.user_tokens.refresh_access_token`.  `http = none` models a
transport exception from the HTTP client; status and body model the provider
response.  Returns the raised error or the new record, together with the
resulting credential store (the successful record is saved before
returning). -/
def refresh_access_token (store : TokenStore) (uid : String) (td : TokenData)
    (now : Nat) (http : Option RefreshHttp) :
    Except RefreshError TokenData × TokenStore :=
  if td.refresh_token.getD "" = "" then (Except.error RefreshError.noRefreshToken, store)
  else
    match http with
    | none => (Except.error RefreshError.transportError, store)
    | some resp =>
      if resp.status ≠ 200 then (Except.error (RefreshError.refreshFailed resp.status), store)
      else
        let td' := applyRefresh td now resp.body
        (Except.ok td', storage_save_user_token store uid td')

/-- `core.user_tokens.get_valid_token`: fetch, decide freshness with a
5-minute lookahead, refresh when stale, fall back per the
refresh-failure policy.  Returns the result, the resulting store, and the
number of refresh attempts made. -/
def get_valid_token (store : TokenStore) (uid : String) (now : Nat)
    (http : Option RefreshHttp) : Option TokenData × TokenStore × Nat :=
  match storage_get_user_token store uid with
  | none => (none, store, 0)
  | some td =>
    if td.isEmptyDict then (none, store, 0)
    else
      let expires_at := td.expires_at.getD 0
      if expires_at ≠ 0 then
        if expires_at < (now : Int) + 300 then
          match refresh_access_token store uid td now http with
          | (Except.ok td', store') => (some td', store', 1)
          | (Except.error _, store') =>
            if expires_at - (now : Int) < 0 then (none, store', 1)
            else (some td, store', 1)
        else (some td, store, 0)
      else (some td, store, 0)

/-- `core.user_tokens.revoke_google_token`.  `http = none` models a transport
exception (caught by the function), `some s` the provider status.  Returns
the boolean result and the number of network calls made. -/
def revoke_google_token (td : TokenData) (http : Option Nat) : Bool × Nat :=
  match td.access_token with
  | none => (false, 0)
  | some tok =>
    if tok = "" then (false, 0)
    else
      match http with
      | none => (false, 1)
      | some status =>
        if status = 200 then (true, 1)
        else if status = 400 then (true, 1)
        else (false, 1)

/-- `core.user_tokens.delete_user_token`: fetch the record, best-effort
revoke when the fetched dict is truthy (its outcome is discarded), then
delete the row and return whether one existed.  The third component counts
calls to `revoke_google_token`. -/
def delete_user_token (store : TokenStore) (uid : String) (revokeHttp : Option Nat) :
    Bool × TokenStore × Nat :=
  let revokeCalls :=
    match storage_get_user_token store uid with
    | some td => if td.isEmptyDict then 0 else ((revoke_google_token td revokeHttp).1, 1).2
    | none => 0
  let r := storage_delete_user_token store uid
  (r.1, r.2, revokeCalls)

/-- Digit test on characters (used by the cron field checker). -/
def isDigitChar (c : Char) : Bool :=
  '0' ≤ c && c ≤ '9'

/-- Split a character list at a separator (keeping empty pieces). -/
def splitOnChar (sep : Char) : List Char → List (List Char)
  | [] => [[]]
  | c :: cs =>
    let rest := splitOnChar sep cs
    if c = sep then [] :: rest
    else
      match rest with
      | [] => [[c]]
      | r :: rs => (c :: r) :: rs

/-- Parse a non-empty all-digit character list as a number. -/
def parseNatChars (l : List Char) : Option Nat :=
  if !l.isEmpty && l.all isDigitChar then
    some (l.foldl (fun a c => a * 10 + (c.toNat - 48)) 0)
  else none

/-- One cron range item: `*`, a value, or a bounded range `a-b`. -/
def validBase (lo hi : Nat) (l : List Char) : Bool :=
  if l = ['*'] then true
  else
    match splitOnChar '-' l with
    | [a] =>
      match parseNatChars a with
      | some n => lo ≤ n && n ≤ hi
      | none => false
    | [a, b] =>
      match parseNatChars a, parseNatChars b with
      | some x, some y => lo ≤ x && x ≤ y && y ≤ hi
      | _, _ => false
    | _ => false

/-- A cron item with an optional positive `/step` suffix. -/
def validItem (lo hi : Nat) (l : List Char) : Bool :=
  match splitOnChar '/' l with
  | [b] => validBase lo hi b
  | [b, st] =>
    validBase lo hi b &&
      (match parseNatChars st with
       | some k => 0 < k
       | none => false)
  | _ => false

/-- A cron field: a non-empty comma list of items within the field bounds. -/
def validField (lo hi : Nat) (l : List Char) : Bool :=
  let items := splitOnChar ',' l
  !items.isEmpty && items.all (validItem lo hi)

/-- Accept/reject verdict of the external cron parser
(`CronTrigger.from_crontab`) on the spec's bit-exact external contract: a
standard 5-field cron expression (minute, hour, day-of-month, month,
day-of-week) with comma lists, ranges and step values.  Whitespace splitting
mirrors Python `str.split()`. -/
def cronValid (expr : String) : Bool :=
  match (splitOnChar ' ' expr.data).filter (fun f => !f.isEmpty) with
  | [mi, h, dom, mon, dow] =>
    validField 0 59 mi && validField 0 23 h && validField 1 31 dom &&
      validField 1 12 mon && validField 0 6 dow
  | _ => false

/-- One registered job in the scheduler engine: the arguments the firing
wrapper receives.  Job keys are the persisted reminder ids (the source keys
jobs by `str(reminder_id)`; `str` is injective on ids, so the id itself is
the key here). -/
structure SchedJob where
  user_id : String
  message : String
  cron : String
deriving DecidableEq

/-- The scheduler engine's in-memory job map. -/
abbrev JobMap := List (Nat × SchedJob)

/-- Lookup in the engine's job map (`scheduler.get_job`). -/
def lookupJob : JobMap → Nat → Option SchedJob
  | [], _ => none
  | (k, v) :: rest, rid => if k = rid then some v else lookupJob rest rid

/-- `scheduler.add_job` with `replace_existing=True`: replace the entry with
this id if present, otherwise append. -/
def insertReplaceJob : JobMap → Nat → SchedJob → JobMap
  | [], rid, j => [(rid, j)]
  | (k, v) :: rest, rid, j =>
    if k = rid then (rid, j) :: rest
    else (k, v) :: insertReplaceJob rest rid j

/-- `scheduler.remove_job`: drop the entry for this id. -/
def removeJob : JobMap → Nat → JobMap
  | [], _ => []
  | (k, v) :: rest, rid =>
    if k = rid then removeJob rest rid
    else (k, v) :: removeJob rest rid

/-- `ScheduleManager.schedule_job`: parse the cron and register the trigger;
a parse failure is caught and logged, leaving the job map unchanged. -/
def schedule_job (jobs : JobMap) (rid : Nat) (uid cron msg : String) : JobMap :=
  if cronValid cron then insertReplaceJob jobs rid ⟨uid, msg, cron⟩
  else jobs

/-- `ScheduleManager.add_reminder`: validate the cron first, raising an
invalid-cron error, then register via `schedule_job`. -/
def sm_add_reminder (jobs : JobMap) (rid : Nat) (uid cron msg : String) :
    Except String JobMap :=
  if cronValid cron then Except.ok (schedule_job jobs rid uid cron msg)
  else Except.error "Invalid cron expression"

/-- `ScheduleManager.delete_reminder`: deregister if present, reporting
whether anything was removed. -/
def delete_reminder (jobs : JobMap) (rid : Nat) : Bool × JobMap :=
  match lookupJob jobs rid with
  | some _ => (true, removeJob jobs rid)
  | none => (false, jobs)

/-- One persisted reminder row (the `reminders` table / the dicts the
`on_start` loader returns). -/
structure ReminderRow where
  id : Nat
  user_id : String
  cron : String
  message : String
deriving DecidableEq

/-- `ScheduleManager.start`: run the injected loader and register each loaded
reminder with `schedule_job`; `loaded = none` models a loader exception,
which is caught so the engine still starts with the jobs unchanged. -/
def sm_start (jobs : JobMap) (loaded : Option (List ReminderRow)) : JobMap :=
  match loaded with
  | some rows =>
    rows.foldl (fun js r => schedule_job js r.id r.user_id r.cron r.message) jobs
  | none => jobs

/-- Result of the adapter-level add operation: the raised error or the new
reminder id, the reminder table afterwards, and the job map afterwards. -/
structure AdapterAddResult where
  result : Except String Nat
  db : List ReminderRow
  jobs : JobMap

/-- `AiAgentAdapter.add_reminder`: persist the row first
(`storage_manager.add_reminder`, which assigns the next id), then call
`ScheduleManager.add_reminder`, whose invalid-cron error propagates. -/
def adapter_add_reminder (db : List ReminderRow) (jobs : JobMap) (nextId : Nat)
    (uid cron msg : String) : AdapterAddResult :=
  let db' := db ++ [⟨nextId, uid, cron, msg⟩]
  match sm_add_reminder jobs nextId uid cron msg with
  | Except.ok jobs' => ⟨Except.ok nextId, db', jobs'⟩
  | Except.error e => ⟨Except.error e, db', jobs⟩

/-- Outcome of one firing of the wrapper: the callback ran, the callback
raised (caught and logged), no callback was registered, or the id was not
registered at all. -/
inductive FireOutcome
  | delivered
  | callbackError (e : String)
  | droppedNoCallback
  | notRegistered
deriving DecidableEq

/-- A notification callback; `Except.error` models a raised exception. -/
abbrev Callback := String → String → Except String Unit

/-- The message formatting done inside `_job_wrapper`. -/
def formatReminder (message cron : String) : String :=
  "⏰ <b>Periodic Reminder</b>\n\n" ++ message ++ "\n\n🕐 <code>" ++ cron ++ "</code>"

/-- `ScheduleManager._job_wrapper`: invoke the registered callback on the
formatted message; any exception it raises is caught (surfacing only as the
`callbackError` outcome), and a missing callback only logs. -/
def job_wrapper (cb : Option Callback) (uid message cron : String) : FireOutcome :=
  match cb with
  | some f =>
    match f uid (formatReminder message cron) with
    | Except.ok _ => FireOutcome.delivered
    | Except.error e => FireOutcome.callbackError e
  | none => FireOutcome.droppedNoCallback

/-- The engine firing a due job: the wrapper runs on the job's stored
arguments; the job map itself is not touched by a firing. -/
def fire_job (jobs : JobMap) (cb : Option Callback) (rid : Nat) :
    JobMap × FireOutcome :=
  match lookupJob jobs rid with
  | some j => (jobs, job_wrapper cb j.user_id j.message j.cron)
  | none => (jobs, FireOutcome.notRegistered)

/-- The job-map entry `schedule_job` produces for a loaded reminder row. -/
def toJobEntry (r : ReminderRow) : Nat × SchedJob :=
  (r.id, ⟨r.user_id, r.message, r.cron⟩)

theorem refresh_access_token_error_store (store : TokenStore) (uid : String)
    (td : TokenData) (now : Nat) (http : Option RefreshHttp) (e : RefreshError)
    (h : (refresh_access_token store uid td now http).1 = Except.error e) :
    (refresh_access_token store uid td now http).2 = store := by
  unfold refresh_access_token at h ⊢
  by_cases hrt : td.refresh_token.getD "" = ""
  · simp [hrt]
  · cases http with
    | none => simp [hrt]
    | some resp =>
      by_cases hs : resp.status = 200
      · simp [hrt, hs] at h
      · simp [hrt, hs]

theorem storage_delete_of_get_none (store : TokenStore) (uid : String)
    (h : storage_get_user_token store uid = none) :
    storage_delete_user_token store uid = (false, store) := by
  induction store with
  | nil => rfl
  | cons p rest ih =>
    obtain ⟨k, v⟩ := p
    by_cases hk : k = uid
    · simp [storage_get_user_token, hk] at h
    · simp [storage_get_user_token, hk] at h
      simp [storage_delete_user_token, hk, ih h]

theorem storage_delete_fst_of_get_some (store : TokenStore) (uid : String) (td : TokenData)
    (h : storage_get_user_token store uid = some td) :
    (storage_delete_user_token store uid).1 = true := by
  induction store with
  | nil => simp [storage_get_user_token] at h
  | cons p rest ih =>
    obtain ⟨k, v⟩ := p
    by_cases hk : k = uid
    · simp [storage_delete_user_token, hk]
    · simp [storage_get_user_token, hk] at h
      simp [storage_delete_user_token, hk]
      exact ih h

theorem storage_get_delete_self (store : TokenStore) (uid : String) :
    storage_get_user_token (storage_delete_user_token store uid).2 uid = none := by
  induction store with
  | nil => rfl
  | cons p rest ih =>
    obtain ⟨k, v⟩ := p
    by_cases hk : k = uid
    · simp [storage_delete_user_token, hk, ih]
    · simp [storage_delete_user_token, hk, storage_get_user_token, ih]

/-- C3: the strict validator returns true exactly when `expires_at` is
present and the current time is strictly below it; in particular it returns
false when the expiry is in the past, absent, or exactly equal to now. -/
theorem is_token_valid_iff (td : Option TokenData) (now : Nat) :
    is_token_valid td now = true ↔
      ∃ t e, td = some t ∧ t.expires_at = some e ∧ (now : Int) < e := by
  cases td with
  | none => simp [is_token_valid]
  | some t =>
    cases he : t.expires_at with
    | none => simp [is_token_valid, he]
    | some e =>
      have hemp : t.isEmptyDict = false := by
        simp [TokenData.isEmptyDict, he]
      by_cases h0 : e = 0
      · subst h0
        simp [is_token_valid, he, hemp]
      · simp [is_token_valid, he, hemp, h0]

/-- C3 witness: a record with expiry 10 is valid at time 5. -/
theorem is_token_valid_iff_witness :
    is_token_valid (some ⟨some "a", none, some 10, []⟩) 5 = true :=
  (is_token_valid_iff (some ⟨some "a", none, some 10, []⟩) 5).mpr
    ⟨⟨some "a", none, some 10, []⟩, 10, rfl, rfl, by decide⟩

/-- C5: a successful refresh returns and persists a record carrying the new
access token, expiry `now` plus the provider-reported lifetime (3600 when
omitted), the refresh token replaced exactly when the provider sent a new
one, and the `extra` bag untouched. -/
theorem refresh_success_updates (store : TokenStore) (uid : String)
    (td : TokenData) (now : Nat) (resp : RefreshHttp)
    (hrt : td.refresh_token.getD "" ≠ "") (hs : resp.status = 200) :
    ∃ td',
      refresh_access_token store uid td now (some resp)
          = (Except.ok td', storage_save_user_token store uid td') ∧
        td'.access_token = some resp.body.access_token ∧
        td'.expires_at = some ((now : Int) + resp.body.expires_in.getD 3600) ∧
        (∀ nrt, resp.body.refresh_token = some nrt → td'.refresh_token = some nrt) ∧
        (resp.body.refresh_token = none → td'.refresh_token = td.refresh_token) ∧
        td'.extra = td.extra := by
  refine ⟨applyRefresh td now resp.body, ?_, rfl, rfl, ?_, ?_, rfl⟩
  · simp [refresh_access_token, hrt, hs]
  · intro nrt h
    simp [applyRefresh, h]
  · intro h
    simp [applyRefresh, h]

/-- C5 witness: a refresh with no new refresh token keeps the old one and
updates the other fields. -/
theorem refresh_success_updates_witness :
    ∃ td',
      refresh_access_token [] "u" ⟨some "old", some "r", some 5, [("scope", "cal")]⟩ 1000
          (some ⟨200, ⟨"new", some 100, none⟩⟩)
          = (Except.ok td', storage_save_user_token [] "u" td') ∧
        td'.access_token = some "new" ∧
        td'.expires_at = some ((1000 : Int) + 100) ∧
        td'.refresh_token = some "r" ∧
        td'.extra = [("scope", "cal")] := by
  obtain ⟨td', h1, h2, h3, _, h5, h6⟩ :=
    refresh_success_updates [] "u" ⟨some "old", some "r", some 5, [("scope", "cal")]⟩ 1000
      ⟨200, ⟨"new", some 100, none⟩⟩ (by decide) rfl
  exact ⟨td', h1, h2, h3, h5 rfl, h6⟩

/-- C6: revoke is a total boolean operation (exceptions are caught inside
it): it returns true exactly when a revocation call was made and the
provider answered 200 or 400, and a record lacking an access token yields
false with zero network calls. -/
theorem revoke_result_spec (td : TokenData) (http : Option Nat) :
    ((revoke_google_token td http).1 = true ↔
        (revoke_google_token td http).2 = 1 ∧ (http = some 200 ∨ http = some 400)) ∧
      (td.access_token = none → revoke_google_token td http = (false, 0)) := by
  constructor
  · cases hat : td.access_token with
    | none => simp [revoke_google_token, hat]
    | some tok =>
      by_cases ht : tok = ""
      · simp [revoke_google_token, hat, ht]
      · cases http with
        | none => simp [revoke_google_token, hat, ht]
        | some s =>
          by_cases h200 : s = 200
          · simp [revoke_google_token, hat, ht, h200]
          · by_cases h400 : s = 400 <;>
              simp [revoke_google_token, hat, ht, h200, h400]
  · intro h
    simp [revoke_google_token, h]

/-- C6 witness: provider 400 counts as revoked; a record with no access
token is refused locally with no call. -/
theorem revoke_result_spec_witness :
    (revoke_google_token ⟨some "a", none, none, []⟩ (some 400)).1 = true ∧
      revoke_google_token ⟨none, some "r", none, []⟩ (some 200) = (false, 0) := by
  constructor
  · exact (revoke_result_spec ⟨some "a", none, none, []⟩ (some 400)).1.mpr
      ⟨rfl, Or.inr rfl⟩
  · exact (revoke_result_spec ⟨none, some "r", none, []⟩ (some 200)).2 rfl

/-- C10: refresh is atomic on error: a missing (or falsy) refresh token and
a non-200 provider response each raise, and every raised error leaves the
credential store exactly as it was — no partial write survives a failed
refresh. -/
theorem refresh_failure_atomic (store : TokenStore) (uid : String)
    (td : TokenData) (now : Nat) (http : Option RefreshHttp) :
    (td.refresh_token.getD "" = "" →
        ∃ e, (refresh_access_token store uid td now http).1 = Except.error e) ∧
      (∀ resp, http = some resp → resp.status ≠ 200 →
        ∃ e, (refresh_access_token store uid td now http).1 = Except.error e) ∧
      ∀ e, (refresh_access_token store uid td now http).1 = Except.error e →
        (refresh_access_token store uid td now http).2 = store := by
  refine ⟨?_, ?_, ?_⟩
  · intro hrt
    exact ⟨RefreshError.noRefreshToken, by simp [refresh_access_token, hrt]⟩
  · intro resp hh hs
    subst hh
    by_cases hrt : td.refresh_token.getD "" = ""
    · exact ⟨RefreshError.noRefreshToken, by simp [refresh_access_token, hrt]⟩
    · exact ⟨RefreshError.refreshFailed resp.status, by simp [refresh_access_token, hrt, hs]⟩
  · intro e h
    exact refresh_access_token_error_store store uid td now http e h

/-- C10 witness: refreshing a record with no refresh token raises and leaves
the store unchanged. -/
theorem refresh_failure_atomic_witness :
    (∃ e,
      (refresh_access_token [("u", ⟨some "a", none, some 5, []⟩)] "u"
          ⟨some "a", none, some 5, []⟩ 1000 none).1 = Except.error e) ∧
      (refresh_access_token [("u", ⟨some "a", none, some 5, []⟩)] "u"
          ⟨some "a", none, some 5, []⟩ 1000 none).2
        = [("u", ⟨some "a", none, some 5, []⟩)] := by
  obtain ⟨e, he⟩ :=
    (refresh_failure_atomic [("u", ⟨some "a", none, some 5, []⟩)] "u"
      ⟨some "a", none, some 5, []⟩ 1000 none).1 rfl
  exact ⟨⟨e, he⟩,
    (refresh_failure_atomic [("u", ⟨some "a", none, some 5, []⟩)] "u"
      ⟨some "a", none, some 5, []⟩ 1000 none).2.2 e he⟩

/-- C2 (amended): `get_valid_token` invokes the refresher exactly when the
stored record's `expires_at` is present, non-zero, and below now + 300
seconds — the code's falsy-value test treats a literal zero expiry like an
absent one.  Already-expired records are included, and at most one refresh
call is ever made. -/
theorem refresh_trigger_iff (store : TokenStore) (uid : String) (now : Nat)
    (http : Option RefreshHttp) (td : TokenData)
    (h : storage_get_user_token store uid = some td) :
    (get_valid_token store uid now http).2.2 = 1 ↔
      ∃ e, td.expires_at = some e ∧ e ≠ 0 ∧ e < (now : Int) + 300 := by
  cases hemp : td.isEmptyDict with
  | true =>
    have hea : td.expires_at = none := by
      cases hx : td.expires_at with
      | none => rfl
      | some v =>
        rw [TokenData.isEmptyDict, hx] at hemp
        simp at hemp
    simp [get_valid_token, h, hemp, hea]
  | false =>
    cases hea : td.expires_at with
    | none => simp [get_valid_token, h, hemp, hea]
    | some e =>
      by_cases h0 : e = 0
      · subst h0
        simp [get_valid_token, h, hemp, hea]
      · by_cases hlt : e < (now : Int) + 300
        · rcases hr : refresh_access_token store uid td now http with ⟨res, store'⟩
          cases res with
          | ok td' => simp [get_valid_token, h, hemp, hea, h0, hlt, hr]
          | error err =>
            by_cases hd : e - (now : Int) < 0 <;>
              simp [get_valid_token, h, hemp, hea, h0, hlt, hr, hd]
        · simp [get_valid_token, h, hemp, hea, h0, hlt]

/-- C2 witness: a record expiring 240 s from now triggers exactly one
refresh call, and one expiring 600 s from now triggers zero. -/
theorem refresh_trigger_iff_witness :
    (get_valid_token [("u", ⟨some "a", some "r", some 1240, []⟩)] "u" 1000
        (some ⟨200, ⟨"na", some 3600, none⟩⟩)).2.2 = 1 ∧
      (get_valid_token [("u", ⟨some "a", some "r", some 1600, []⟩)] "u" 1000
          (some ⟨200, ⟨"na", some 3600, none⟩⟩)).2.2 = 0 := by
  constructor
  · exact (refresh_trigger_iff [("u", ⟨some "a", some "r", some 1240, []⟩)] "u" 1000
      (some ⟨200, ⟨"na", some 3600, none⟩⟩) ⟨some "a", some "r", some 1240, []⟩
      (by decide)).mpr ⟨1240, rfl, by decide, by decide⟩
  · decide

/-- C2 counterexample: a stored record whose `expires_at` is present and
equal to 0 satisfies "present and less than now + 300" yet triggers zero
refresh calls. -/
theorem refresh_skipped_zero_expiry_cex :
    storage_get_user_token [("u", ⟨some "a", some "r", some 0, []⟩)] "u"
        = some ⟨some "a", some "r", some 0, []⟩ ∧
      ((0 : Int) < 1000 + 300) ∧
      (get_valid_token [("u", ⟨some "a", some "r", some 0, []⟩)] "u" 1000
          (some ⟨200, ⟨"na", some 3600, none⟩⟩)).2.2 = 0 := by
  exact ⟨by decide, by decide, by decide⟩

/-- C4: when renewal is triggered and the refresh raises: a record whose
expiry is already strictly past returns nothing (no dead credential is
leaked), while a record still inside the lookahead window is returned
unrefreshed as the best-effort fallback; the store is unchanged either
way. -/
theorem refresh_failure_fallback (store : TokenStore) (uid : String)
    (now : Nat) (http : Option RefreshHttp) (td : TokenData) (e : Int)
    (err : RefreshError)
    (hget : storage_get_user_token store uid = some td)
    (he : td.expires_at = some e) (hne : e ≠ 0) (hlt : e < (now : Int) + 300)
    (hfail : (refresh_access_token store uid td now http).1 = Except.error err) :
    (e < (now : Int) → get_valid_token store uid now http = (none, store, 1)) ∧
      ((now : Int) ≤ e → get_valid_token store uid now http = (some td, store, 1)) := by
  have hemp : td.isEmptyDict = false := by
    simp [TokenData.isEmptyDict, he]
  have hstore := refresh_access_token_error_store store uid td now http err hfail
  have hp : refresh_access_token store uid td now http = (Except.error err, store) := by
    rw [Prod.ext_iff]
    exact ⟨hfail, hstore⟩
  constructor
  · intro hpast
    have hd : e - (now : Int) < 0 := by omega
    simp [get_valid_token, hget, hemp, he, hne, hlt, hp, hd]
  · intro hfut
    have hd : ¬(e - (now : Int) < 0) := by omega
    simp [get_valid_token, hget, hemp, he, hne, hlt, hp, hd]

/-- C4 witness: with a record already expired (900 < 1000) and a refresh
that fails for lack of a refresh token, `get_valid_token` returns nothing
and leaves the store unchanged. -/
theorem refresh_failure_fallback_witness :
    get_valid_token [("u", ⟨some "a", none, some 900, []⟩)] "u" 1000 none
      = (none, [("u", ⟨some "a", none, some 900, []⟩)], 1) :=
  (refresh_failure_fallback [("u", ⟨some "a", none, some 900, []⟩)] "u" 1000 none
    ⟨some "a", none, some 900, []⟩ 900 RefreshError.noRefreshToken
    (by decide) rfl (by decide) (by decide) rfl).1 (by decide)

/-- C7 (amended): delete on an identity whose stored record is non-empty
makes exactly one revoke attempt, whose outcome does not affect the result,
then deletes the row and returns true; on an identity with no record it
makes zero revoke calls and returns false.  (An identity whose stored
record is the empty dict is deleted with zero revoke attempts.) -/
theorem delete_user_token_spec (store : TokenStore) (uid : String)
    (h1 h2 : Option Nat) :
    (∀ td, storage_get_user_token store uid = some td → td.isEmptyDict = false →
        (delete_user_token store uid h1).1 = true ∧
          (delete_user_token store uid h1).2.2 = 1 ∧
          storage_get_user_token (delete_user_token store uid h1).2.1 uid = none) ∧
      (storage_get_user_token store uid = none →
        delete_user_token store uid h1 = (false, store, 0)) ∧
      delete_user_token store uid h1 = delete_user_token store uid h2 := by
  refine ⟨?_, ?_, rfl⟩
  · intro td hget hemp
    refine ⟨?_, ?_, ?_⟩
    · simpa [delete_user_token] using storage_delete_fst_of_get_some store uid td hget
    · simp [delete_user_token, hget, hemp]
    · simpa [delete_user_token] using storage_get_delete_self store uid
  · intro hget
    simp [delete_user_token, hget, storage_delete_of_get_none store uid hget]

/-- C7 witness: deleting an identity with a (non-empty) stored record makes
one revoke attempt, removes the row, and returns true. -/
theorem delete_user_token_spec_witness :
    (delete_user_token [("u", ⟨some "a", some "r", some 5, []⟩)] "u" (some 500)).1 = true ∧
      (delete_user_token [("u", ⟨some "a", some "r", some 5, []⟩)] "u" (some 500)).2.2 = 1 ∧
      storage_get_user_token
          (delete_user_token [("u", ⟨some "a", some "r", some 5, []⟩)] "u" (some 500)).2.1
          "u" = none :=
  (delete_user_token_spec [("u", ⟨some "a", some "r", some 5, []⟩)] "u" (some 500)
    (some 500)).1 ⟨some "a", some "r", some 5, []⟩ (by decide) (by decide)

/-- C7 counterexample: an identity whose stored record is the empty dict has
an existing record, yet deletion makes zero revoke attempts while still
removing the row and returning true. -/
theorem delete_empty_record_no_revoke_cex :
    storage_get_user_token [("u", (⟨none, none, none, []⟩ : TokenData))] "u"
        = some ⟨none, none, none, []⟩ ∧
      delete_user_token [("u", (⟨none, none, none, []⟩ : TokenData))] "u" (some 200)
        = (true, [], 0) := by
  exact ⟨by decide, by decide⟩

/-- C8: an exception raised by the notification callback during job A's
firing is caught by the wrapper — it surfaces only as the `callbackError`
outcome value, never as a raised exception — the job map is untouched, job A
stays registered, and a subsequent firing of any job B is exactly what it
would have been without A's failure. -/
theorem callback_error_isolated (jobs : JobMap) (cb : Callback) (ridA ridB : Nat)
    (jA : SchedJob) (e : String)
    (hA : lookupJob jobs ridA = some jA)
    (hthrow : cb jA.user_id (formatReminder jA.message jA.cron) = Except.error e) :
    (fire_job jobs (some cb) ridA).2 = FireOutcome.callbackError e ∧
      (fire_job jobs (some cb) ridA).1 = jobs ∧
      lookupJob (fire_job jobs (some cb) ridA).1 ridA = some jA ∧
      fire_job (fire_job jobs (some cb) ridA).1 (some cb) ridB
        = fire_job jobs (some cb) ridB := by
  refine ⟨?_, ?_, ?_, ?_⟩ <;> simp [fire_job, hA, job_wrapper, hthrow]

/-- C8 witness: a callback that always throws leaves the firing job
registered and yields the caught-error outcome. -/
theorem callback_error_isolated_witness :
    (fire_job [(1, (⟨"alice", "mA", "* * * * *"⟩ : SchedJob))]
          (some fun _ _ => Except.error "boom") 1).2
        = FireOutcome.callbackError "boom" ∧
      lookupJob (fire_job [(1, (⟨"alice", "mA", "* * * * *"⟩ : SchedJob))]
          (some fun _ _ => Except.error "boom") 1).1 1
        = some ⟨"alice", "mA", "* * * * *"⟩ := by
  have h := callback_error_isolated [(1, ⟨"alice", "mA", "* * * * *"⟩)]
    (fun _ _ => Except.error "boom") 1 2 ⟨"alice", "mA", "* * * * *"⟩ "boom" rfl rfl
  exact ⟨h.1, h.2.2.1⟩

/-- C1 (amended): adding a reminder with an invalid schedule expression
raises the invalid-cron error and registers nothing with the scheduler, but
only after the persistence write — the invalid row has already been
stored. -/
theorem adapter_add_invalid_cron_persists (db : List ReminderRow) (jobs : JobMap)
    (nextId : Nat) (uid cron msg : String) (hc : cronValid cron = false) :
    adapter_add_reminder db jobs nextId uid cron msg
      = ⟨Except.error "Invalid cron expression", db ++ [⟨nextId, uid, cron, msg⟩], jobs⟩ := by
  simp [adapter_add_reminder, sm_add_reminder, hc]

/-- C1 witness: the add operation at cron "not a cron" errors while the
invalid row sits in the reminder table and no job is registered. -/
theorem adapter_add_invalid_cron_persists_witness :
    adapter_add_reminder [] [] 1 "u" "not a cron" "m"
      = ⟨Except.error "Invalid cron expression", [⟨1, "u", "not a cron", "m"⟩], []⟩ :=
  adapter_add_invalid_cron_persists [] [] 1 "u" "not a cron" "m" (by decide)

/-- C1 counterexample: `addScheduledJob` with cron "not a cron" fails with
the invalid-schedule error, yet a persistence write has occurred: the
reminder table now holds the invalid job, against the claim's "the invalid
job is never stored". -/
theorem invalid_cron_still_persisted_cex :
    (adapter_add_reminder [] [] 1 "u" "not a cron" "m").result
        = Except.error "Invalid cron expression" ∧
      (adapter_add_reminder [] [] 1 "u" "not a cron" "m").db
        = [⟨1, "u", "not a cron", "m"⟩] := by
  constructor
  · rfl
  · decide

theorem lookupJob_eq_none_of_not_mem (js : JobMap) (rid : Nat)
    (h : rid ∉ js.map Prod.fst) : lookupJob js rid = none := by
  induction js with
  | nil => rfl
  | cons p rest ih =>
    obtain ⟨k, v⟩ := p
    rw [List.map_cons, List.mem_cons] at h
    push_neg at h
    have hk : ¬(k = rid) := fun he => h.1 he.symm
    simp [lookupJob, hk]
    exact ih h.2

theorem insertReplaceJob_append (js : JobMap) (rid : Nat) (j : SchedJob)
    (h : lookupJob js rid = none) :
    insertReplaceJob js rid j = js ++ [(rid, j)] := by
  induction js with
  | nil => rfl
  | cons p rest ih =>
    obtain ⟨k, v⟩ := p
    by_cases hk : k = rid
    · simp [lookupJob, hk] at h
    · simp [lookupJob, hk] at h
      simp [insertReplaceJob, hk, ih h]

theorem sm_start_loads_all (rows : List ReminderRow) (acc : JobMap)
    (hcron : ∀ r ∈ rows, cronValid r.cron = true)
    (hnd : (acc.map Prod.fst ++ rows.map ReminderRow.id).Nodup) :
    rows.foldl (fun js r => schedule_job js r.id r.user_id r.cron r.message) acc
      = acc ++ rows.map toJobEntry := by
  induction rows generalizing acc with
  | nil => simp
  | cons r rs ih =>
    have hc : cronValid r.cron = true := hcron r (List.mem_cons_self r rs)
    have hnotmem : r.id ∉ acc.map Prod.fst := by
      rcases List.nodup_append.mp hnd with ⟨_, _, hdisj⟩
      intro hmem
      exact hdisj hmem (by simp)
    have hlk : lookupJob acc r.id = none :=
      lookupJob_eq_none_of_not_mem acc r.id hnotmem
    have hstep : schedule_job acc r.id r.user_id r.cron r.message
        = acc ++ [toJobEntry r] := by
      simp [schedule_job, hc, insertReplaceJob_append acc r.id _ hlk, toJobEntry]
    have hnd' : ((acc ++ [toJobEntry r]).map Prod.fst ++ rs.map ReminderRow.id).Nodup := by
      have heq : (acc ++ [toJobEntry r]).map Prod.fst ++ rs.map ReminderRow.id
          = acc.map Prod.fst ++ (r.id :: rs.map ReminderRow.id) := by
        simp [toJobEntry]
      rw [heq]
      simpa using hnd
    rw [List.foldl_cons, hstep,
      ih (acc ++ [toJobEntry r]) (fun x hx => hcron x (List.mem_cons_of_mem r hx)) hnd']
    simp

theorem lookupJob_map_rows (rows : List ReminderRow) (r : ReminderRow)
    (hmem : r ∈ rows) (hnd : (rows.map ReminderRow.id).Nodup) :
    lookupJob (rows.map toJobEntry) r.id = some ⟨r.user_id, r.message, r.cron⟩ := by
  induction rows with
  | nil => cases hmem
  | cons a as ih =>
    rw [List.map_cons] at hnd
    rcases List.mem_cons.mp hmem with h | h
    · subst h
      simp [lookupJob, toJobEntry]
    · have hne : ¬(a.id = r.id) := by
        intro he
        exact (List.nodup_cons.mp hnd).1 (he ▸ List.mem_map_of_mem ReminderRow.id h)
      simp [lookupJob, toJobEntry, hne]
      exact ih h (List.nodup_cons.mp hnd).2

/-- C9 (amended): when the loader returns rows with pairwise-distinct ids
and valid cron expressions, `start()` registers exactly one engine job per
loaded row, each retrievable and removable under its persisted id.  (A row
whose cron fails to parse is skipped with a logged error rather than
registered, and duplicate ids replace one another.) -/
theorem start_registers_all_loaded (rows : List ReminderRow)
    (hcron : ∀ r ∈ rows, cronValid r.cron = true)
    (hnd : (rows.map ReminderRow.id).Nodup) :
    (sm_start [] (some rows)).length = rows.length ∧
      ∀ r ∈ rows,
        lookupJob (sm_start [] (some rows)) r.id = some ⟨r.user_id, r.message, r.cron⟩ ∧
          (delete_reminder (sm_start [] (some rows)) r.id).1 = true := by
  have hs : sm_start [] (some rows) = rows.map toJobEntry := by
    have h := sm_start_loads_all rows [] hcron (by simpa using hnd)
    simpa [sm_start] using h
  refine ⟨by simp [hs], ?_⟩
  intro r hr
  have hl := lookupJob_map_rows rows r hr hnd
  rw [hs]
  refine ⟨hl, ?_⟩
  simp [delete_reminder, hl]

/-- C9 witness: a loader returning jobs with ids 1 and 2 yields exactly two
registered jobs after start, with id 1 retrievable. -/
theorem start_registers_all_loaded_witness :
    (sm_start []
        (some [⟨1, "u1", "* * * * *", "m1"⟩, ⟨2, "u2", "0 12 * * *", "m2"⟩])).length = 2 ∧
      lookupJob
          (sm_start []
            (some [⟨1, "u1", "* * * * *", "m1"⟩, ⟨2, "u2", "0 12 * * *", "m2"⟩])) 1
        = some ⟨"u1", "m1", "* * * * *"⟩ := by
  have h := start_registers_all_loaded
    [⟨1, "u1", "* * * * *", "m1"⟩, ⟨2, "u2", "0 12 * * *", "m2"⟩]
    (by decide) (by decide)
  exact ⟨h.1, (h.2 ⟨1, "u1", "* * * * *", "m1"⟩ (by decide)).1⟩

/-- C9 counterexample: a loader returning one persisted job whose cron is
"not a cron" leaves zero jobs registered after start, not one — unparseable
rows are skipped, so N loaded jobs do not always mean N registered jobs. -/
theorem start_skips_invalid_cron_cex :
    (sm_start [] (some [⟨1, "u", "not a cron", "m"⟩])).length = 0 := by
  decide
